import Mathlib

/-!
Shallow embedding of the project-tracking dashboard in src/app.py.

The SQLite tables are modelled as lists of rows kept in insertion order
(which is how SELECT without ORDER BY returns them for these tables), with
the AUTOINCREMENT counters carried explicitly.  The filesystem is a finite
map from path strings to file bytes.  Dates are a record of year, month and
day; strftime with format %Y-%m-%d is embedded as zero-padded rendering.
Failures of the database connection and of disk writes are injected through
an environment record, so that the try/except structure (or its absence) in
each source function is observable: a caught exception becomes an error
message, an uncaught one becomes a raised result.
-/

/-- A calendar date, as produced by st.date_input. -/
structure Date where
  year : Nat
  month : Nat
  day : Nat
deriving DecidableEq, Repr

/-- Zero-pad to two digits, as strftime %m and %d do. -/
def pad2 (n : Nat) : String :=
  if n < 10 then "0" ++ toString n else toString n

/-- Zero-pad to four digits, as strftime %Y does. -/
def pad4 (n : Nat) : String :=
  if n < 10 then "000" ++ toString n
  else if n < 100 then "00" ++ toString n
  else if n < 1000 then "0" ++ toString n
  else toString n

/-- date.strftime with format %Y-%m-%d. -/
def Date.strftime (d : Date) : String :=
  pad4 d.year ++ "-" ++ pad2 d.month ++ "-" ++ pad2 d.day

/-- A row of the projects table. -/
structure Project where
  id : Nat
  project_name : String
  category : String
  pic : String
  status : String
  date_start : String
  date_end : String
deriving DecidableEq, Repr

/-- A row of the project_files table.  The upload_date column is a wall-clock
timestamp never consulted by any operation, so it is not modelled. -/
structure FileRow where
  id : Nat
  project_id : Nat
  file_name : String
  file_path : String
deriving DecidableEq, Repr

/-- The filesystem: a finite map from path to file bytes. -/
abbrev Disk := List (String × List Nat)

/-- Reading a file: the bytes stored at the path, if the path exists. -/
def diskRead (d : Disk) (p : String) : Option (List Nat) :=
  (d.find? (fun e => e.1 = p)).map Prod.snd

/-- Writing a file at a path overwrites whatever was there before. -/
def diskWrite (d : Disk) (p : String) (b : List Nat) : Disk :=
  (p, b) :: d.filter (fun e => e.1 ≠ p)

/-- os.remove. -/
def diskRemove (d : Disk) (p : String) : Disk :=
  d.filter (fun e => e.1 ≠ p)

/-- The whole mutable state: both tables, their AUTOINCREMENT counters, and
the filesystem. -/
structure Store where
  projects : List Project
  nextProjectId : Nat
  files : List FileRow
  nextFileId : Nat
  disk : Disk
deriving DecidableEq, Repr

/-- The state after init_db on a fresh database: empty tables, ids start at 1. -/
def emptyStore : Store := ⟨[], 1, [], 1, []⟩

/-- Fault injection: whether the SQLite connection raises on use, and whether
opening/writing a disk file raises. -/
structure Env where
  dbFails : Bool
  diskWriteFails : Bool
deriving DecidableEq, Repr

/-- The environment in which nothing fails. -/
def noFail : Env := ⟨false, false⟩

/-- What an operation reports: st.success, st.error, an uncaught exception
propagating out of the function, or no report at all. -/
inductive Result where
  | success (msg : String)
  | error (msg : String)
  | raised (exc : String)
  | silent
deriving DecidableEq, Repr

/-- The text of the injected database exception. -/
def dbErr : String := "database error"

/-- get_all_projects: SELECT * FROM projects; any exception is caught, shown
as an error, and an empty frame is returned. -/
def get_all_projects (env : Env) (s : Store) : List Project × Result :=
  if env.dbFails then ([], .error ("Error fetching projects: " ++ dbErr))
  else (s.projects, .silent)

/-- add_project: INSERT a row with an auto-assigned id; sqlite3.Error is
caught and shown. -/
def add_project (env : Env) (s : Store) (project_name category pic status : String)
    (date_start date_end : Date) : Store × Result :=
  if env.dbFails then (s, .error ("Error adding project: " ++ dbErr))
  else
    ({ s with
        projects := s.projects ++
          [⟨s.nextProjectId, project_name, category, pic, status,
            date_start.strftime, date_end.strftime⟩],
        nextProjectId := s.nextProjectId + 1 },
     .success "Project added successfully!")

/-- The SET clause of the UPDATE statement: overwrite every non-id column of
a row with the given values. -/
def setCols (project_name category pic status date_start date_end : String)
    (r : Project) : Project :=
  { r with
      project_name := project_name, category := category, pic := pic,
      status := status, date_start := date_start, date_end := date_end }

/-- update_project: UPDATE all non-id columns of the rows WHERE id matches;
sqlite3.Error is caught and shown. -/
def update_project (env : Env) (s : Store) (id : Nat)
    (project_name category pic status : String)
    (date_start date_end : Date) : Store × Result :=
  if env.dbFails then (s, .error ("Error updating project: " ++ dbErr))
  else
    ({ s with
        projects := s.projects.map (fun r =>
          if r.id = id then
            setCols project_name category pic status
              date_start.strftime date_end.strftime r
          else r) },
     .success "Project updated successfully!")

/-- delete_project: DELETE FROM projects WHERE id matches; sqlite3.Error is
caught and shown.  Nothing else is touched. -/
def delete_project (env : Env) (s : Store) (id : Nat) : Store × Result :=
  if env.dbFails then (s, .error ("Error deleting project: " ++ dbErr))
  else
    ({ s with projects := s.projects.filter (fun r => r.id ≠ id) },
     .success "Project deleted successfully!")

/-- What st.file_uploader hands over: the original name and the byte buffer. -/
structure UploadedFile where
  name : String
  buffer : List Nat
deriving DecidableEq, Repr

/-- upload_file: if no file was chosen the body is skipped silently; otherwise
the bytes are written to files/project_<id>/<name> and a metadata row is
inserted.  The source has no try/except here, so a failing disk write or a
failing insert propagates as an uncaught exception; after a failed insert the
already-written blob stays on disk. -/
def upload_file (env : Env) (s : Store) (project_id : Nat)
    (uploaded_file : Option UploadedFile) : Store × Result :=
  match uploaded_file with
  | none => (s, .silent)
  | some uf =>
    let directory := "files/project_" ++ toString project_id ++ "/"
    let filepath := directory ++ uf.name
    if env.diskWriteFails then (s, .raised "OSError")
    else
      let s1 := { s with disk := diskWrite s.disk filepath uf.buffer }
      if env.dbFails then (s1, .raised "sqlite3.Error")
      else
        ({ s1 with
            files := s1.files ++ [⟨s1.nextFileId, project_id, uf.name, filepath⟩],
            nextFileId := s1.nextFileId + 1 },
         .success "File uploaded successfully!")

/-- delete_file: looks the row up by id; reports when absent.  SELECT *
returns the columns in order id, project_id, file_name, file_path,
upload_date, so row[2] in the source is the bare file_name: both the
existence check and os.remove act on file_name, not on file_path.  When that
path exists the file there is removed and then the row is deleted; otherwise
an error is shown and nothing changes.  The whole body is wrapped in a
try/except that shows any exception. -/
def delete_file (env : Env) (s : Store) (file_id : Nat) : Store × Result :=
  if env.dbFails then (s, .error ("Error deleting the file: " ++ dbErr))
  else
    match s.files.find? (fun r => r.id = file_id) with
    | none => (s, .error "File does not exist in the database.")
    | some row =>
      if (diskRead s.disk row.file_name).isSome then
        ({ s with
            disk := diskRemove s.disk row.file_name,
            files := s.files.filter (fun r => r.id ≠ file_id) },
         .success "File deleted successfully!")
      else (s, .error "File does not exist on disk.")

/-- The Add Project form handler in tab2.  Python truthiness: a string tests
true iff it is non-empty.  The isinstance-and-length test on the date pair is
statically true in this embedding, where both dates are always present. -/
def tab2_submit (env : Env) (s : Store)
    (new_project new_category new_pic new_status : String)
    (start_date end_date : Date) : Store × Result :=
  if new_project ≠ "" ∧ new_pic ≠ "" then
    add_project env s new_project new_category new_pic new_status start_date end_date
  else (s, .error "Project Name and PIC are required!")

/-- The tab5 file listing: SELECT id, file_name, file_path FROM project_files
WHERE project_id matches, in insertion order. -/
def tab5_project_files (s : Store) (project_id : Nat) : List FileRow :=
  s.files.filter (fun r => r.project_id = project_id)

/-- Outcome of pressing one download button. -/
inductive DlResult where
  | ok (bytes : List Nat)
  | raised (exc : String)
deriving DecidableEq, Repr

/-- The tab5 download of the listed row with the given id: the file at the
row.file_path is opened and read in full.  The open is not guarded, so a
missing file raises an uncaught FileNotFoundError.  No button exists for an
id that is not in the listing. -/
def tab5_download (s : Store) (file_id : Nat) : Option DlResult :=
  (s.files.find? (fun r => r.id = file_id)).map (fun row =>
    match diskRead s.disk row.file_path with
    | some b => .ok b
    | none => .raised "FileNotFoundError")

/-- Invariant of every store reachable from emptyStore: AUTOINCREMENT hands
out strictly increasing ids, so each table is in increasing id order and all
ids are below the counter. -/
def Store.WF (s : Store) : Prop :=
  s.projects.Pairwise (fun a b => a.id < b.id) ∧
  (∀ r ∈ s.projects, r.id < s.nextProjectId) ∧
  s.files.Pairwise (fun a b => a.id < b.id) ∧
  (∀ r ∈ s.files, r.id < s.nextFileId)

/-- A store with two projects, used to instantiate the frame theorems. -/
def twoProjStore : Store :=
  ⟨[⟨1, "Portal Revamp", "Project", "Alice", "In Progress", "2024-01-01", "2024-02-01"⟩,
    ⟨2, "Helpdesk", "Service", "Bob", "On Hold", "2024-03-01", "2024-04-01"⟩],
   3, [], 1, []⟩

/-- The store after uploading spec.pdf with bytes 1,2,3 for project 1 into the
empty store. -/
def storeAfterUpload : Store :=
  (upload_file noFail emptyStore 1 (some ⟨"spec.pdf", [1, 2, 3]⟩)).1

/-- The store after uploading a.pdf twice for project 1, first with byte 1,
then with byte 2. -/
def dupStore : Store :=
  (upload_file noFail (upload_file noFail emptyStore 1 (some ⟨"a.pdf", [1]⟩)).1
    1 (some ⟨"a.pdf", [2]⟩)).1

/-- A store holding one metadata row whose on-disk file is missing. -/
def danglingStore : Store :=
  ⟨[], 1, [⟨1, 1, "a.pdf", "files/project_1/a.pdf"⟩], 2, []⟩

/-- Helper: find? by id on an appended singleton whose id is fresh for the
left list returns the appended row. -/
theorem find_id_append_singleton (l : List FileRow) (x : FileRow) (i : Nat)
    (h : ∀ r ∈ l, r.id ≠ i) (hx : x.id = i) :
    (l ++ [x]).find? (fun r => r.id = i) = some x := by
  induction l with
  | nil => simp [List.find?, hx]
  | cons a t ih =>
    have ha : a.id ≠ i := h a (by simp)
    have hd : (fun r : FileRow => decide (r.id = i)) a = false := by simpa using ha
    simp only [List.cons_append, List.find?, hd]
    exact ih (fun r hr => h r (by simp [hr]))

/-- Helper: the element a map reads at a position. -/
theorem list_get_map (f : Project → Project) (l : List Project) (j : Nat)
    (hj : j < l.length) (hj2 : j < (l.map f).length) :
    (l.map f).get ⟨j, hj2⟩ = f (l.get ⟨j, hj⟩) := by
  simp

/-- C9: calling upload_file with no chosen file is a silent no-op: the store
is unchanged and neither a success nor an error is reported. -/
theorem upload_file_none_noop (env : Env) (s : Store) (project_id : Nat) :
    upload_file env s project_id none = (s, Result.silent) := rfl

/-- C3: after a normal upload the blob sits at the row's file_path, yet
delete_file reports that the file does not exist on disk and changes nothing,
because the source tests os.path.exists of row[2], which is the bare
file_name, instead of the file_path where upload_file stored the bytes. -/
theorem delete_file_checks_name_not_path :
    diskRead storeAfterUpload.disk "files/project_1/spec.pdf" = some [1, 2, 3] ∧
    diskRead storeAfterUpload.disk "spec.pdf" = none ∧
    delete_file noFail storeAfterUpload 1 =
      (storeAfterUpload, Result.error "File does not exist on disk.") :=
  ⟨rfl, rfl, rfl⟩

/-- C10: uploading a.pdf twice for project 1 leaves two metadata rows sharing
one blob that holds the second bytes; delete_file on the first row then
reports the file missing and removes neither the blob nor any row, again
because it checks the bare file_name rather than the file_path. -/
theorem duplicate_upload_then_delete :
    dupStore.files = [⟨1, 1, "a.pdf", "files/project_1/a.pdf"⟩,
      ⟨2, 1, "a.pdf", "files/project_1/a.pdf"⟩] ∧
    dupStore.disk = [("files/project_1/a.pdf", [2])] ∧
    delete_file noFail dupStore 1 =
      (dupStore, Result.error "File does not exist on disk.") :=
  ⟨rfl, rfl, rfl⟩

/-- C6: submitting the add form with an empty project name or an empty PIC
shows the required-fields error and leaves the store unchanged. -/
theorem add_project_requires_name_and_pic (env : Env) (s : Store)
    (n c p st : String) (ds de : Date) (h : n = "" ∨ p = "") :
    tab2_submit env s n c p st ds de =
      (s, Result.error "Project Name and PIC are required!") := by
  have hc : ¬(n ≠ "" ∧ p ≠ "") := by
    rcases h with h | h <;> simp [h]
  unfold tab2_submit
  rw [if_neg hc]

/-- C6 witness: the concrete submission with an empty name is rejected. -/
theorem add_project_requires_name_and_pic_witness :
    tab2_submit noFail emptyStore "" "Project" "Alice" "In Progress"
      ⟨2024, 1, 1⟩ ⟨2024, 2, 1⟩ =
      (emptyStore, Result.error "Project Name and PIC are required!") :=
  add_project_requires_name_and_pic noFail emptyStore "" "Project" "Alice"
    "In Progress" ⟨2024, 1, 1⟩ ⟨2024, 2, 1⟩ (Or.inl rfl)

/-- C5: delete_project removes every row carrying the given id from the
subsequent listing, keeps every other project row, and leaves the
file-metadata table and the disk exactly as they were. -/
theorem delete_project_no_cascade (s : Store) (i : Nat) :
    (∀ r ∈ (get_all_projects noFail (delete_project noFail s i).1).1, r.id ≠ i) ∧
    (∀ r ∈ s.projects, r.id ≠ i → r ∈ (delete_project noFail s i).1.projects) ∧
    (delete_project noFail s i).1.files = s.files ∧
    (delete_project noFail s i).1.disk = s.disk := by
  refine ⟨?_, ?_, rfl, rfl⟩
  · intro r hr
    simp [get_all_projects, delete_project, noFail, List.mem_filter] at hr
    exact hr.2
  · intro r hr hne
    simp [delete_project, noFail, List.mem_filter]
    exact ⟨hr, hne⟩

/-- C5 witness: deleting project 1 from the two-project store leaves its file
table untouched and drops id 1 from the listing. -/
theorem delete_project_no_cascade_witness :
    (∀ r ∈ (get_all_projects noFail (delete_project noFail twoProjStore 1).1).1,
      r.id ≠ 1) ∧
    (delete_project noFail twoProjStore 1).1.files = twoProjStore.files :=
  ⟨(delete_project_no_cascade twoProjStore 1).1,
   (delete_project_no_cascade twoProjStore 1).2.2.1⟩

/-- Helper: writing a path and reading it back gives the written bytes. -/
theorem diskRead_diskWrite_self (d : Disk) (p : String) (b : List Nat) :
    diskRead (diskWrite d p b) p = some b := by
  simp [diskRead, diskWrite, List.find?]

/-- C1: adding a valid project and then listing yields a record carrying
exactly the given fields, the dates rendered as YYYY-MM-DD; on the first
insert into the empty store that record has the auto-assigned id 1. -/
theorem add_project_then_list (s : Store) (n c p st : String) (ds de : Date)
    (hn : n ≠ "") (hp : p ≠ "") :
    (∃ r ∈ (get_all_projects noFail (tab2_submit noFail s n c p st ds de).1).1,
        r.project_name = n ∧ r.category = c ∧ r.pic = p ∧ r.status = st ∧
        r.date_start = ds.strftime ∧ r.date_end = de.strftime) ∧
    (∃ r ∈ (get_all_projects noFail
        (tab2_submit noFail emptyStore n c p st ds de).1).1,
        r.id = 1 ∧ r.project_name = n ∧ r.category = c ∧ r.pic = p ∧
        r.status = st ∧ r.date_start = ds.strftime ∧ r.date_end = de.strftime) := by
  have hc : n ≠ "" ∧ p ≠ "" := ⟨hn, hp⟩
  constructor
  · refine ⟨⟨s.nextProjectId, n, c, p, st, ds.strftime, de.strftime⟩, ?_,
      rfl, rfl, rfl, rfl, rfl, rfl⟩
    simp [tab2_submit, if_pos hc, add_project, get_all_projects, noFail]
  · refine ⟨⟨1, n, c, p, st, ds.strftime, de.strftime⟩, ?_,
      rfl, rfl, rfl, rfl, rfl, rfl, rfl⟩
    simp [tab2_submit, if_pos hc, add_project, get_all_projects, noFail, emptyStore]

/-- C1 witness: the concrete first insert of the spec scenario gets id 1. -/
theorem add_project_then_list_witness :
    ∃ r ∈ (get_all_projects noFail
        (tab2_submit noFail emptyStore "Portal Revamp" "Project" "Alice"
          "In Progress" ⟨2024, 1, 1⟩ ⟨2024, 2, 1⟩).1).1,
      r.id = 1 ∧ r.project_name = "Portal Revamp" ∧ r.category = "Project" ∧
      r.pic = "Alice" ∧ r.status = "In Progress" ∧
      r.date_start = (Date.mk 2024 1 1).strftime ∧
      r.date_end = (Date.mk 2024 2 1).strftime :=
  (add_project_then_list emptyStore "Portal Revamp" "Project" "Alice"
    "In Progress" ⟨2024, 1, 1⟩ ⟨2024, 2, 1⟩ (by decide) (by decide)).2

/-- Helper: mapping a function that fixes every element of a list is the
identity. -/
theorem list_map_fix (f : Project → Project) (l : List Project)
    (h : ∀ r ∈ l, f r = r) : l.map f = l := by
  induction l with
  | nil => rfl
  | cons a t ih =>
    rw [List.map_cons, h a (by simp), ih (fun r hr => h r (by simp [hr]))]

/-- C4: updating a nonexistent id leaves the whole store exactly as it was;
updating an existing id overwrites the non-id columns of each matching row,
positionally, and leaves every other row, the file table and the disk
unchanged. -/
theorem update_project_frame (s : Store) (i : Nat) (n c p st : String)
    (ds de : Date) :
    ((∀ r ∈ s.projects, r.id ≠ i) →
      (update_project noFail s i n c p st ds de).1 = s) ∧
    (update_project noFail s i n c p st ds de).1.files = s.files ∧
    (update_project noFail s i n c p st ds de).1.disk = s.disk ∧
    (update_project noFail s i n c p st ds de).1.projects.length =
      s.projects.length ∧
    ∀ (j : Nat) (hj : j < s.projects.length)
      (hj2 : j < (update_project noFail s i n c p st ds de).1.projects.length),
      (update_project noFail s i n c p st ds de).1.projects.get ⟨j, hj2⟩ =
        (if (s.projects.get ⟨j, hj⟩).id = i then
          setCols n c p st ds.strftime de.strftime (s.projects.get ⟨j, hj⟩)
         else s.projects.get ⟨j, hj⟩) := by
  refine ⟨?_, rfl, rfl, by simp [update_project, noFail], ?_⟩
  · intro h
    have hmap := list_map_fix
      (fun r => if r.id = i then setCols n c p st ds.strftime de.strftime r else r)
      s.projects (fun r hr => if_neg (h r hr))
    show ({ s with
        projects := s.projects.map
          (fun r =>
            if r.id = i then setCols n c p st ds.strftime de.strftime r
            else r) } : Store) = s
    rw [hmap]
  · intro j hj hj2
    exact list_get_map _ s.projects j hj hj2

/-- C4 witness: updating the absent id 99 in the two-project store is a
no-op on the whole store. -/
theorem update_project_frame_witness :
    (update_project noFail twoProjStore 99 "X" "Project" "Y" "Completed"
      ⟨2024, 1, 1⟩ ⟨2024, 1, 2⟩).1 = twoProjStore :=
  (update_project_frame twoProjStore 99 "X" "Project" "Y" "Completed"
    ⟨2024, 1, 1⟩ ⟨2024, 1, 2⟩).1 (by decide)

/-- C2: uploading bytes b under name n for project pid stores them at
files/project_pid/n, the tab5 listing for pid then contains a row named n
carrying the fresh id, and downloading that id returns exactly b. -/
theorem upload_list_download_roundtrip (s : Store) (pid : Nat) (n : String)
    (b : List Nat) (hwf : s.WF) :
    diskRead (upload_file noFail s pid (some ⟨n, b⟩)).1.disk
      ("files/project_" ++ toString pid ++ "/" ++ n) = some b ∧
    (∃ r ∈ tab5_project_files (upload_file noFail s pid (some ⟨n, b⟩)).1 pid,
        r.file_name = n ∧ r.id = s.nextFileId) ∧
    tab5_download (upload_file noFail s pid (some ⟨n, b⟩)).1 s.nextFileId =
      some (DlResult.ok b) := by
  obtain ⟨-, -, -, hfile⟩ := hwf
  have hfresh : ∀ r ∈ s.files, r.id ≠ s.nextFileId :=
    fun r hr => Nat.ne_of_lt (hfile r hr)
  have hdisk : (upload_file noFail s pid (some ⟨n, b⟩)).1.disk =
      diskWrite s.disk ("files/project_" ++ toString pid ++ "/" ++ n) b := rfl
  have hfiles : (upload_file noFail s pid (some ⟨n, b⟩)).1.files =
      s.files ++ [⟨s.nextFileId, pid, n,
        "files/project_" ++ toString pid ++ "/" ++ n⟩] := rfl
  have hfind : ((upload_file noFail s pid (some ⟨n, b⟩)).1.files).find?
      (fun r => r.id = s.nextFileId) =
      some ⟨s.nextFileId, pid, n, "files/project_" ++ toString pid ++ "/" ++ n⟩ := by
    rw [hfiles]
    exact find_id_append_singleton s.files _ s.nextFileId hfresh rfl
  refine ⟨?_, ?_, ?_⟩
  · rw [hdisk]
    exact diskRead_diskWrite_self s.disk _ b
  · refine ⟨⟨s.nextFileId, pid, n,
      "files/project_" ++ toString pid ++ "/" ++ n⟩, ?_, rfl, rfl⟩
    rw [tab5_project_files, hfiles]
    simp [List.mem_filter]
  · rw [tab5_download, hfind]
    simp [hdisk, diskRead_diskWrite_self]

/-- C2 witness: the spec scenario upload of spec.pdf for project 1 into the
empty store round-trips its bytes. -/
theorem upload_list_download_roundtrip_witness :
    diskRead (upload_file noFail emptyStore 1 (some ⟨"spec.pdf", [1, 2, 3]⟩)).1.disk
      ("files/project_" ++ toString 1 ++ "/" ++ "spec.pdf") = some [1, 2, 3] ∧
    (∃ r ∈ tab5_project_files
        (upload_file noFail emptyStore 1 (some ⟨"spec.pdf", [1, 2, 3]⟩)).1 1,
        r.file_name = "spec.pdf" ∧ r.id = emptyStore.nextFileId) ∧
    tab5_download (upload_file noFail emptyStore 1 (some ⟨"spec.pdf", [1, 2, 3]⟩)).1
      emptyStore.nextFileId = some (DlResult.ok [1, 2, 3]) :=
  upload_list_download_roundtrip emptyStore 1 "spec.pdf" [1, 2, 3]
    (by simp [Store.WF, emptyStore])

/-- C8: under the AUTOINCREMENT invariant the project listing returns all
rows in strictly increasing id order, and the tab5 file listing returns
exactly the rows whose project_id matches, as a subsequence of the table
(insertion order), also in increasing id order. -/
theorem listing_order_and_filter (s : Store) (pid : Nat) (hwf : s.WF) :
    (get_all_projects noFail s).1 = s.projects ∧
    (get_all_projects noFail s).1.Pairwise (fun a b => a.id < b.id) ∧
    (∀ r ∈ tab5_project_files s pid, r.project_id = pid) ∧
    (∀ r ∈ s.files, r.project_id = pid → r ∈ tab5_project_files s pid) ∧
    (tab5_project_files s pid).Sublist s.files ∧
    (tab5_project_files s pid).Pairwise (fun a b => a.id < b.id) := by
  obtain ⟨hp, -, hf, -⟩ := hwf
  refine ⟨rfl, hp, ?_, ?_, ?_, ?_⟩
  · intro r hr
    simp [tab5_project_files, List.mem_filter] at hr
    exact hr.2
  · intro r hr hpid
    simp [tab5_project_files, List.mem_filter]
    exact ⟨hr, hpid⟩
  · exact List.filter_sublist _
  · exact List.Pairwise.sublist (List.filter_sublist _) hf

/-- C8 witness: the two-project store lists both rows in id order. -/
theorem listing_order_and_filter_witness :
    (get_all_projects noFail twoProjStore).1 = twoProjStore.projects ∧
    (get_all_projects noFail twoProjStore).1.Pairwise (fun a b => a.id < b.id) :=
  ⟨(listing_order_and_filter twoProjStore 1
      (by simp [Store.WF, twoProjStore, List.pairwise_cons])).1,
   (listing_order_and_filter twoProjStore 1
      (by simp [Store.WF, twoProjStore, List.pairwise_cons])).2.1⟩

/-- C7 counterexample: when the disk write fails, upload_file does not
surface a caught user-visible error message; the OSError propagates out of
the function uncaught, because upload_file has no try/except. -/
theorem upload_write_failure_uncaught :
    (upload_file ⟨false, true⟩ emptyStore 1 (some ⟨"a.pdf", [1]⟩)).2 =
      Result.raised "OSError" ∧
    ¬∃ m, (upload_file ⟨false, true⟩ emptyStore 1 (some ⟨"a.pdf", [1]⟩)).2 =
      Result.error m := by
  refine ⟨rfl, ?_⟩
  rintro ⟨m, hm⟩
  have h0 : (upload_file ⟨false, true⟩ emptyStore 1 (some ⟨"a.pdf", [1]⟩)).2 =
      Result.raised "OSError" := rfl
  rw [h0] at hm
  exact Result.noConfusion hm

/-- C7 amended: the project CRUD operations and delete_file catch their
failures and surface error messages, but upload_file catches nothing — a
failing disk write or a failing metadata insert raises out of it, the latter
leaving the already-written blob on disk — and the tab5 download of a row
whose disk file is missing raises an uncaught FileNotFoundError. -/
theorem error_handling_boundaries (s : Store) (i pid fid : Nat)
    (n c p st : String) (ds de : Date) (uf : UploadedFile) :
    get_all_projects ⟨true, false⟩ s =
      ([], Result.error ("Error fetching projects: " ++ dbErr)) ∧
    add_project ⟨true, false⟩ s n c p st ds de =
      (s, Result.error ("Error adding project: " ++ dbErr)) ∧
    update_project ⟨true, false⟩ s i n c p st ds de =
      (s, Result.error ("Error updating project: " ++ dbErr)) ∧
    delete_project ⟨true, false⟩ s i =
      (s, Result.error ("Error deleting project: " ++ dbErr)) ∧
    delete_file ⟨true, false⟩ s fid =
      (s, Result.error ("Error deleting the file: " ++ dbErr)) ∧
    (upload_file ⟨false, true⟩ s pid (some uf)).2 = Result.raised "OSError" ∧
    upload_file ⟨true, false⟩ s pid (some uf) =
      ({ s with
          disk := diskWrite s.disk
                    ("files/project_" ++ toString pid ++ "/" ++ uf.name)
                    uf.buffer },
       Result.raised "sqlite3.Error") ∧
    ∀ r, s.files.find? (fun q => q.id = fid) = some r →
      diskRead s.disk r.file_path = none →
      tab5_download s fid = some (DlResult.raised "FileNotFoundError") := by
  refine ⟨rfl, rfl, rfl, rfl, rfl, rfl, rfl, ?_⟩
  intro r hfind hmiss
  rw [tab5_download, hfind]
  simp [hmiss]

/-- C7 amended witness: the download button of the dangling row raises. -/
theorem error_handling_boundaries_witness :
    tab5_download danglingStore 1 = some (DlResult.raised "FileNotFoundError") :=
  (error_handling_boundaries danglingStore 0 1 1 "x" "x" "x" "x"
      ⟨2024, 1, 1⟩ ⟨2024, 1, 2⟩ ⟨"a.pdf", [1]⟩).2.2.2.2.2.2.2
    ⟨1, 1, "a.pdf", "files/project_1/a.pdf"⟩ rfl rfl
